import Mathlib

/-!
Verification of the RaspTank motor-control and ultrasonic-monitor core.

Shallow embedding of `src/web/move.py` and `src/web/ultrasonic_monitor.py`.
Speeds, throttles and distances are modelled as rationals (`ℚ`); Python's
float arithmetic on these small decimal values is exact at every input used
here.  Channel writes become updates of an explicit `MotorState`; the
monitor thread's mutable fields become an explicit `MonState` record, and
one iteration of its polling loop becomes a pure function of the state and
of the outcome of the external sensor read.
-/

namespace RaspTank

/-! ### move.py: module-level constants -/

/-- Right motor direction multiplier (`M1_Direction = 1`, move.py line 61). -/
def M1_Direction : ℤ := 1

/-- Left motor direction multiplier (`M2_Direction = 1`, move.py line 62). -/
def M2_Direction : ℤ := 1

/-- Tracking-line offset constant `TL_LEFT_Offset = 10` (move.py line 76). -/
def TL_LEFT_Offset : ℚ := 10

/-- Tracking-line offset constant `TL_RIGHT_Offset = 0` (move.py line 77). -/
def TL_RIGHT_Offset : ℚ := 0

/-- The linear range-mapping utility `map(x, in_min, in_max, out_min, out_max)`
(move.py line 117); named `mapRange` here because `map` is taken in Lean. -/
def mapRange (x in_min in_max out_min out_max : ℚ) : ℚ :=
  (x - in_min) / (in_max - in_min) * (out_max - out_min) + out_min

/-- The four motor throttles held by the PCA9685-driven DC motor objects
`motor1 .. motor4`.  Writing `motorN.throttle = v` becomes an update of the
corresponding field. -/
structure MotorState where
  m1 : ℚ
  m2 : ℚ
  m3 : ℚ
  m4 : ℚ
deriving DecidableEq

/-- All-zero motor state, as after `motorStop()`. -/
def zeroMotorState : MotorState := ⟨0, 0, 0, 0⟩

/-- `motorStop()` (move.py line 191): sets every throttle to 0. -/
def motorStop (st : MotorState) : MotorState :=
  let st := {st with m1 := 0}
  let st := {st with m2 := 0}
  let st := {st with m3 := 0}
  {st with m4 := 0}

/-- The throttle value computed inside `Motor(channel, direction, motor_speed)`
(move.py lines 212-223): clamp `motor_speed` to [0,100], map linearly to
[0,1], and negate exactly when `direction == -1` (any other direction value,
including the 0 used by `trackingMove`, leaves the sign positive). -/
def motorThrottle (direction : ℤ) (motor_speed : ℚ) : ℚ :=
  let ms := if motor_speed > 100 then (100 : ℚ)
            else if motor_speed < 0 then 0
            else motor_speed
  let speed := mapRange ms 0 100 0 1
  if direction = -1 then -speed else speed

/-- `Motor(channel, direction, motor_speed)` (move.py lines 210-231): writes
the computed throttle to the addressed channel; channels outside 1..4 write
nothing. -/
def Motor (channel : ℕ) (direction : ℤ) (motor_speed : ℚ)
    (st : MotorState) : MotorState :=
  let speed := motorThrottle direction motor_speed
  if channel = 1 then {st with m1 := speed}
  else if channel = 2 then {st with m2 := speed}
  else if channel = 3 then {st with m3 := speed}
  else if channel = 4 then {st with m4 := speed}
  else st

/-- Reads the throttle currently held on a channel of a `MotorState`. -/
def throttleOf (st : MotorState) (channel : ℕ) : ℚ :=
  if channel = 1 then st.m1
  else if channel = 2 then st.m2
  else if channel = 3 then st.m3
  else if channel = 4 then st.m4
  else 0

/-- The `turn` argument of the three movement functions.  The source compares
against the strings "left" and "right" with a catch-all `else`; `mid` stands
for every other string (the straight case). -/
inductive Turn
| left
| right
| mid
deriving DecidableEq

/-- `move(speed, direction, turn, radius)` (move.py lines 233-276).  `radius`
is accepted and unused, exactly as in the source. -/
def move (speed : ℚ) (direction : ℤ) (turn : Turn) (radius : ℚ)
    (st : MotorState) : MotorState :=
  if speed = 0 then motorStop st
  else if direction = 1 then
    match turn with
    | Turn.left => Motor 2 M2_Direction speed (Motor 1 (-M1_Direction) speed st)
    | Turn.right => Motor 2 (-M2_Direction) speed (Motor 1 M1_Direction speed st)
    | Turn.mid => Motor 2 M2_Direction speed (Motor 1 M1_Direction speed st)
  else if direction = -1 then
    Motor 2 (-M2_Direction) speed (Motor 1 (-M1_Direction) speed st)
  else st

/-- `trackingMove(speed, direction, turn, radius)` (move.py lines 282-321).
Note that the source passes `speed + TL_LEFT_Offset` to channel 1 (the right
motor) and `speed + TL_RIGHT_Offset` to channel 2 (the left motor), and that
the "stop" branches pass direction 0 to `Motor`. -/
def trackingMove (speed : ℚ) (direction : ℤ) (turn : Turn) (radius : ℚ)
    (st : MotorState) : MotorState :=
  if speed = 0 then motorStop st
  else if direction = 1 then
    match turn with
    | Turn.left =>
        Motor 2 0 (speed + TL_RIGHT_Offset)
          (Motor 1 (-M1_Direction) (speed + TL_LEFT_Offset) st)
    | Turn.right =>
        Motor 2 (-M2_Direction) (speed + TL_RIGHT_Offset)
          (Motor 1 0 speed st)
    | Turn.mid =>
        Motor 2 M2_Direction (speed + TL_RIGHT_Offset)
          (Motor 1 M1_Direction (speed + TL_LEFT_Offset) st)
  else if direction = -1 then
    Motor 2 (-M2_Direction) (speed + TL_RIGHT_Offset)
      (Motor 1 (-M1_Direction) (speed + TL_LEFT_Offset) st)
  else st

/-- `video_Tracking_Move(speed, direction, turn, radius)` (move.py lines
328-369). -/
def video_Tracking_Move (speed : ℚ) (direction : ℤ) (turn : Turn) (radius : ℚ)
    (st : MotorState) : MotorState :=
  if speed = 0 then motorStop st
  else if direction = 1 then
    match turn with
    | Turn.left =>
        Motor 2 M2_Direction (speed * radius)
          (Motor 1 (-M1_Direction) speed st)
    | Turn.right =>
        Motor 2 (-M2_Direction) speed
          (Motor 1 M1_Direction (speed * radius) st)
    | Turn.mid =>
        Motor 2 M2_Direction speed (Motor 1 M1_Direction speed st)
  else if direction = -1 then
    Motor 2 (-M2_Direction) speed (Motor 1 (-M1_Direction) speed st)
  else st

/-! ### ultrasonic_monitor.py: the UltrasonicMonitor state and operations -/

/-- The mutable fields of an `UltrasonicMonitor` instance
(ultrasonic_monitor.py lines 14-22), plus `thread_started`, which models the
started flag kept by the Python `threading.Thread` base class (a thread
object can be started at most once; a second `start()` raises
`RuntimeError`).  The callback is modelled by whether one is registered. -/
structure MonState where
  running : Bool
  continuous : Bool
  update_rate : ℚ
  last_distance : ℚ
  callback_set : Bool
  stop_event : Bool
  thread_started : Bool
deriving DecidableEq

/-- The state produced by `UltrasonicMonitor.__init__`. -/
def initMonState : MonState :=
  { running := false
    continuous := false
    update_rate := 10
    last_distance := 0
    callback_set := false
    stop_event := false
    thread_started := false }

/-- Outcome of one call into the external sensor (`ultra.checkdist()`):
either a distance in centimetres, or any raised exception. -/
inductive SensorResult
| ok (d : ℚ)
| err
deriving DecidableEq

/-- `get_single_reading()` (ultrasonic_monitor.py lines 40-48): one try/except
around `ultra.checkdist()`.  Returns the new state, the value returned to the
caller, and whether the error message was printed.  On an exception the
assignment to `last_distance` is never reached and the function returns -1;
it is a total function, so it never propagates the exception. -/
def get_single_reading (st : MonState) (r : SensorResult) :
    MonState × ℚ × Bool :=
  match r with
  | SensorResult.ok d => ({st with last_distance := d}, d, false)
  | SensorResult.err => (st, -1, true)

/-- `set_callback(callback)` (ultrasonic_monitor.py lines 24-26). -/
def set_callback (st : MonState) : MonState :=
  {st with callback_set := true}

/-- `start_continuous(rate)` (ultrasonic_monitor.py lines 28-34).  Returns
the new state, whether a background thread was launched, and whether the
call raised (Python's `Thread.start()` raises `RuntimeError` when the thread
object was already started once; the field writes made before that raise
persist). -/
def start_continuous (st : MonState) (rate : ℚ) :
    MonState × Bool × Bool :=
  let st1 := {st with update_rate := rate, continuous := true}
  if st1.running = false then
    let st2 := {st1 with running := true}
    if st2.thread_started = true then (st2, false, true)
    else ({st2 with thread_started := true}, true, false)
  else (st1, false, false)

/-- `stop_continuous()` (ultrasonic_monitor.py lines 36-38). -/
def stop_continuous (st : MonState) : MonState :=
  {st with continuous := false}

/-- `stop()` (ultrasonic_monitor.py lines 77-81). -/
def stop (st : MonState) : MonState :=
  {st with running := false, continuous := false, stop_event := true}

/-- The guard of the `run()` loop (ultrasonic_monitor.py line 52):
`self.running and not self._stop_event.is_set()`. -/
def loopGuard (st : MonState) : Bool :=
  st.running && !st.stop_event

/-- Python's `round` tie-breaking: round half to even (banker's rounding). -/
def roundHalfEven (q : ℚ) : ℤ :=
  if q - ⌊q⌋ < 1/2 then ⌊q⌋
  else if (1 : ℚ)/2 < q - ⌊q⌋ then ⌊q⌋ + 1
  else if ⌊q⌋ % 2 = 0 then ⌊q⌋ else ⌊q⌋ + 1

/-- `round(distance, 2)`: round to 2 decimal places, half to even. -/
def round2 (q : ℚ) : ℚ :=
  (roundHalfEven (q * 100) : ℚ) / 100

/-- The visible outcome of one iteration of the `run()` loop body:
the state afterwards, the distance delivered to the callback (if it was
invoked), the sleep duration in seconds, and whether a sensor reading error
was logged. -/
structure IterResult where
  st : MonState
  callbackData : Option ℚ
  sleepSeconds : ℚ
  loggedReadError : Bool
deriving DecidableEq

/-- One iteration of the `run()` loop body (ultrasonic_monitor.py lines
52-75), as a function of the state and of the outcome of the underlying
sensor read.  When `continuous` is set it calls `get_single_reading` (which
absorbs any sensor exception and yields -1), invokes the callback only when
one is registered and the distance is ≥ 0, and sleeps `1.0/update_rate`;
otherwise it sleeps 0.1 s.  The statements of the try block after
`get_single_reading` returns are a dict construction, the callback call and
`time.sleep`, none of which raise in this pure model, so the `except` branch
that sleeps 1 s is not reachable from a sensor read failure. -/
def runIter (st : MonState) (r : SensorResult) : IterResult :=
  if st.continuous = true then
    let g := get_single_reading st r
    let cb := if g.1.callback_set = true ∧ 0 ≤ g.2.1
              then some (round2 g.2.1) else none
    ⟨g.1, cb, 1 / g.1.update_rate, g.2.2⟩
  else
    ⟨st, none, 1/10, false⟩

/-- A monitor state mid-run: thread launched and actively sampling with a
registered callback at the default 10 Hz. -/
def contMonState : MonState :=
  { running := true
    continuous := true
    update_rate := 10
    last_distance := 0
    callback_set := true
    stop_event := false
    thread_started := true }

/-! ### Helper lemmas -/

/-- The throttle computed by `Motor` is always within [-1, 1], whatever the
direction value and however far out of range the requested speed is. -/
theorem motorThrottle_bounds (direction : ℤ) (motor_speed : ℚ) :
    -1 ≤ motorThrottle direction motor_speed ∧
    motorThrottle direction motor_speed ≤ 1 := by
  unfold motorThrottle mapRange
  split_ifs <;> constructor <;> norm_num <;> linarith

/-- Evaluation of `trackingMove` at speed 50, Forward, Straight. -/
theorem trackingMove_mid_50 (st : MotorState) :
    trackingMove 50 1 Turn.mid (6/10) st = {st with m1 := 6/10, m2 := 5/10} := by
  simp only [trackingMove, Motor, motorThrottle, mapRange,
    TL_LEFT_Offset, TL_RIGHT_Offset, M1_Direction, M2_Direction]
  norm_num

/-- Evaluation of `trackingMove` at speed 50, Forward, Left. -/
theorem trackingMove_left_50 (st : MotorState) :
    trackingMove 50 1 Turn.left (6/10) st = {st with m1 := -(6/10), m2 := 1/2} := by
  simp only [trackingMove, Motor, motorThrottle, mapRange,
    TL_LEFT_Offset, TL_RIGHT_Offset, M1_Direction, M2_Direction]
  norm_num

/-- Evaluation of `video_Tracking_Move` at speed 50, Forward, Left, radius 1. -/
theorem video_left_50_radius_one (st : MotorState) :
    video_Tracking_Move 50 1 Turn.left 1 st = {st with m1 := -(1/2), m2 := 1/2} := by
  simp only [video_Tracking_Move, Motor, motorThrottle, mapRange,
    M1_Direction, M2_Direction]
  norm_num

/-- Evaluation of `move` at speed 50, Forward, Straight. -/
theorem move_mid_50 (st : MotorState) :
    move 50 1 Turn.mid (6/10) st = {st with m1 := 1/2, m2 := 1/2} := by
  simp only [move, Motor, motorThrottle, mapRange, M1_Direction, M2_Direction]
  norm_num

/-- Banker's rounding sends nonnegative inputs to nonnegative integers. -/
theorem roundHalfEven_nonneg (q : ℚ) (h : 0 ≤ q) : 0 ≤ roundHalfEven q := by
  have h0 : (0 : ℤ) ≤ ⌊q⌋ := Int.floor_nonneg.mpr h
  unfold roundHalfEven
  split_ifs <;> omega

/-- Rounding to two decimal places preserves nonnegativity. -/
theorem round2_nonneg (q : ℚ) (h : 0 ≤ q) : 0 ≤ round2 q := by
  have h1 : (0 : ℤ) ≤ roundHalfEven (q * 100) :=
    roundHalfEven_nonneg _ (by positivity)
  unfold round2
  have h2 : (0 : ℚ) ≤ (roundHalfEven (q * 100) : ℚ) := by exact_mod_cast h1
  exact div_nonneg h2 (by norm_num)

end RaspTank

namespace RaspTank

/-! ### Claims about the motor layer -/

/-- Claim C1: every call to `Motor(channel, direction, motor_speed)` with any
rational `motor_speed` (covering out-of-range integers, speed-plus-offset
sums and speed-times-radius products) and any direction value writes a
throttle in [-1, 1] to the addressed channel. -/
theorem Motor_throttle_in_range (channel : ℕ) (direction : ℤ)
    (motor_speed : ℚ) (st : MotorState)
    (h1 : 1 ≤ channel) (h2 : channel ≤ 4) :
    -1 ≤ throttleOf (Motor channel direction motor_speed st) channel ∧
    throttleOf (Motor channel direction motor_speed st) channel ≤ 1 := by
  interval_cases channel <;>
    simpa [Motor, throttleOf] using motorThrottle_bounds direction motor_speed

/-- Concrete instantiation of `Motor_throttle_in_range`: channel 3, direction
-1, requested speed 250 (out of range). -/
theorem Motor_throttle_in_range_holds :
    (1 ≤ 3 ∧ (3 : ℕ) ≤ 4) ∧
    (-1 ≤ throttleOf (Motor 3 (-1) 250 zeroMotorState) 3 ∧
     throttleOf (Motor 3 (-1) 250 zeroMotorState) 3 ≤ 1) :=
  ⟨⟨by norm_num, by norm_num⟩,
   Motor_throttle_in_range 3 (-1) 250 zeroMotorState (by norm_num) (by norm_num)⟩

/-- Claim C2 counterexample: `trackingMove(50, Forward, Straight)` does NOT
give the left channel (motor 2) magnitude 0.60 and the right channel
(motor 1) magnitude 0.50; the source applies `TL_LEFT_Offset` to channel 1,
so the magnitudes land the other way around. -/
theorem trackingMove_offsets_claim_false :
    ¬ (|(trackingMove 50 1 Turn.mid (6/10) zeroMotorState).m2| = 6/10 ∧
       |(trackingMove 50 1 Turn.mid (6/10) zeroMotorState).m1| = 5/10) := by
  intro h
  obtain ⟨h1, _⟩ := h
  rw [trackingMove_mid_50] at h1
  simp only [zeroMotorState] at h1
  rw [abs_of_nonneg (by norm_num : (0:ℚ) ≤ 5/10)] at h1
  norm_num at h1

/-- Claim C2 (amended): `trackingMove(50, Forward, Straight)` with offsets
(left=10, right=0) gives the RIGHT channel (motor 1) throttle magnitude 0.60
and the LEFT channel (motor 2) throttle magnitude 0.50, because the source
adds `TL_LEFT_Offset` to the speed sent to channel 1 and `TL_RIGHT_Offset`
to the speed sent to channel 2. -/
theorem trackingMove_offsets_amended (st : MotorState) :
    |(trackingMove 50 1 Turn.mid (6/10) st).m1| = 6/10 ∧
    |(trackingMove 50 1 Turn.mid (6/10) st).m2| = 5/10 := by
  rw [trackingMove_mid_50]
  constructor
  · rw [show ({st with m1 := 6/10, m2 := 5/10} : MotorState).m1 = 6/10 from rfl]
    exact abs_of_nonneg (by norm_num)
  · rw [show ({st with m1 := 6/10, m2 := 5/10} : MotorState).m2 = 5/10 from rfl]
    exact abs_of_nonneg (by norm_num)

/-- Claim C3: the code contradicts its own comments here.  At speed 50,
Forward, Left, the "inside" channel (motor 2, which the source comments as
"Left motor stop") is in fact driven forward at throttle 0.5, because
`Motor` only negates on direction -1 and treats the direction-0 "stop"
argument like forward.  The inside channel is not 0. -/
theorem trackingMove_left_inner_driven :
    (trackingMove 50 1 Turn.left (6/10) zeroMotorState).m2 = 1/2 ∧
    ((1 : ℚ)/2 ≠ 0) := by
  rw [trackingMove_left_50]
  norm_num

/-- Claim C4: the code contradicts its own docstring ("0 = sharp turn,
1 = gentle curve").  At speed 50, Forward, Left, radius 1, the outer channel
(motor 1) is driven REVERSED at -0.5, so the result equals the tank pivot of
`move(50, Forward, Left)` and differs from `move(50, Forward, Straight)`,
whose motor-1 throttle is +0.5. -/
theorem video_tracking_radius_one_not_straight :
    (video_Tracking_Move 50 1 Turn.left 1 zeroMotorState).m1 = -(1/2) ∧
    (move 50 1 Turn.mid (6/10) zeroMotorState).m1 = 1/2 ∧
    (video_Tracking_Move 50 1 Turn.left 1 zeroMotorState).m1 ≠
      (move 50 1 Turn.mid (6/10) zeroMotorState).m1 := by
  rw [video_left_50_radius_one, move_mid_50]
  norm_num

/-! ### Claims about the sensor monitor -/

/-- Claim C5 counterexample: on a failed read at the default 10 Hz, the loop
body sleeps the normal 1/rateHz = 0.1 s interval, not the claimed 1 s
backoff (which lives in an `except` branch that a sensor read failure never
reaches, since `get_single_reading` catches the exception itself). -/
theorem runIter_err_sleep_not_one :
    (runIter contMonState SensorResult.err).sleepSeconds ≠ 1 := by
  norm_num [runIter, get_single_reading, contMonState]

/-- Claim C5 (amended): whenever a single read of the sensor fails during a
continuous-mode iteration, the loop logs the failure and does not invoke the
registered callback for that iteration, but it sleeps the NORMAL 1/rateHz
interval rather than the claimed 1-second backoff: the 1-second branch is
unreachable for read failures because `get_single_reading` converts them to
-1 internally. -/
theorem runIter_read_failure (st : MonState) (h : st.continuous = true) :
    (runIter st SensorResult.err).loggedReadError = true ∧
    (runIter st SensorResult.err).callbackData = none ∧
    (runIter st SensorResult.err).sleepSeconds = 1 / st.update_rate := by
  norm_num [runIter, get_single_reading, h]

/-- Concrete instantiation of `runIter_read_failure` at the mid-run state. -/
theorem runIter_read_failure_holds :
    contMonState.continuous = true ∧
    ((runIter contMonState SensorResult.err).loggedReadError = true ∧
     (runIter contMonState SensorResult.err).callbackData = none ∧
     (runIter contMonState SensorResult.err).sleepSeconds =
       1 / contMonState.update_rate) :=
  ⟨rfl, runIter_read_failure contMonState rfl⟩

/-- Claim C6: `get_single_reading` is a total function of the sensor
outcome, so the caller never sees an exception.  On failure it returns the
sentinel -1 and leaves `last_distance` unchanged; on success it returns the
read value and stores it in `last_distance`. -/
theorem get_single_reading_no_raise (st : MonState) (d : ℚ) :
    ((get_single_reading st SensorResult.err).2.1 = -1 ∧
     (get_single_reading st SensorResult.err).1.last_distance =
       st.last_distance) ∧
    ((get_single_reading st (SensorResult.ok d)).2.1 = d ∧
     (get_single_reading st (SensorResult.ok d)).1.last_distance = d) := by
  simp [get_single_reading]

/-- Claim C7: after `stop()`, the `run()` loop guard is false, so the loop
body executes no further reading; and a subsequent `start_continuous` on an
instance whose thread was already started launches no new background task:
the inherited `Thread.start()` raises (rejecting the restart). -/
theorem stop_terminates_no_restart (st : MonState) (rate : ℚ)
    (h : st.thread_started = true) :
    loopGuard (stop st) = false ∧
    (start_continuous (stop st) rate).2.1 = false ∧
    (start_continuous (stop st) rate).2.2 = true := by
  simp [loopGuard, stop, start_continuous, h]

/-- Concrete instantiation of `stop_terminates_no_restart`. -/
theorem stop_terminates_no_restart_holds :
    contMonState.thread_started = true ∧
    (loopGuard (stop contMonState) = false ∧
     (start_continuous (stop contMonState) 5).2.1 = false ∧
     (start_continuous (stop contMonState) 5).2.2 = true) :=
  ⟨rfl, stop_terminates_no_restart contMonState 5 rfl⟩

/-- Claim C8: calling `start_continuous` while the background task is
already running only updates the sampling rate and the continuous flag; it
launches no second task and raises nothing. -/
theorem start_continuous_idempotent (st : MonState) (rate : ℚ)
    (h : st.running = true) :
    (start_continuous st rate).1 =
      {st with update_rate := rate, continuous := true} ∧
    (start_continuous st rate).2.1 = false ∧
    (start_continuous st rate).2.2 = false := by
  simp [start_continuous, h]

/-- Concrete instantiation of `start_continuous_idempotent`: the second of
two back-to-back `start_continuous(5)` calls on a fresh monitor updates the
rate only and launches nothing. -/
theorem start_continuous_idempotent_holds :
    (start_continuous initMonState 5).1.running = true ∧
    ((start_continuous (start_continuous initMonState 5).1 5).1 =
       {(start_continuous initMonState 5).1 with
          update_rate := 5, continuous := true} ∧
     (start_continuous (start_continuous initMonState 5).1 5).2.1 = false ∧
     (start_continuous (start_continuous initMonState 5).1 5).2.2 = false) :=
  ⟨rfl, start_continuous_idempotent (start_continuous initMonState 5).1 5 rfl⟩

/-- Claim C9: every reading delivered to the callback by a loop iteration
whose underlying read returned `d` carries exactly `round(d, 2)`. -/
theorem callback_distance_rounded (st : MonState) (d x : ℚ)
    (h : (runIter st (SensorResult.ok d)).callbackData = some x) :
    x = round2 d := by
  by_cases hc : st.continuous = true
  · simp only [runIter, get_single_reading, hc, if_true] at h
    split_ifs at h
    exact (Option.some.inj h).symm
  · simp [runIter, hc] at h

/-- Concrete instantiation of `callback_distance_rounded` at reading 12.34. -/
theorem callback_distance_rounded_holds :
    (runIter contMonState (SensorResult.ok (617/50))).callbackData =
      some (617/50) ∧
    (617/50 : ℚ) = round2 (617/50) := by
  have h : (runIter contMonState (SensorResult.ok (617/50))).callbackData =
      some (617/50) := by
    norm_num [runIter, get_single_reading, contMonState, round2, roundHalfEven]
  exact ⟨h, callback_distance_rounded contMonState (617/50) (617/50) h⟩

/-- Claim C10: a loop iteration invokes the callback only on a distance
≥ 0, so the -1 sentinel of a failed read is never delivered and every value
the callback receives is nonnegative. -/
theorem callback_values_nonneg (st : MonState) (r : SensorResult) (x : ℚ)
    (h : (runIter st r).callbackData = some x) :
    0 ≤ x ∧ (runIter st SensorResult.err).callbackData = none := by
  constructor
  · cases r with
    | ok d =>
        by_cases hc : st.continuous = true
        · simp only [runIter, get_single_reading, hc, if_true] at h
          split_ifs at h with hcb
          have hx : round2 d = x := Option.some.inj h
          exact hx ▸ round2_nonneg d hcb.2
        · simp [runIter, hc] at h
    | err =>
        by_cases hc : st.continuous = true
        · have hnone : (runIter st SensorResult.err).callbackData = none := by
            norm_num [runIter, get_single_reading, hc]
          rw [hnone] at h
          exact Option.noConfusion h
        · simp [runIter, hc] at h
  · by_cases hc : st.continuous = true
    · norm_num [runIter, get_single_reading, hc]
    · simp [runIter, hc]

/-- Concrete instantiation of `callback_values_nonneg` at reading 5. -/
theorem callback_values_nonneg_holds :
    (runIter contMonState (SensorResult.ok 5)).callbackData = some 5 ∧
    (0 ≤ (5 : ℚ) ∧
     (runIter contMonState SensorResult.err).callbackData = none) := by
  have h : (runIter contMonState (SensorResult.ok 5)).callbackData = some 5 := by
    norm_num [runIter, get_single_reading, contMonState, round2, roundHalfEven]
  exact ⟨h, callback_values_nonneg contMonState (SensorResult.ok 5) 5 h⟩

end RaspTank
